import Mathlib

/-!
Shallow embedding of the gokit file-storage abstraction
(pkg/filesystem: handler.go, local_storage.go, s3_storage.go, factory.go,
the filesystem Config, and pkg/filesystem/errors) together with proofs
about its specified properties.

Modeling conventions:
- Go strings are Lean String values; Go byte slices are List Nat.
- Wall-clock timestamps (FileInfo.LastModified) are omitted: no verified
  property mentions them and they are pure environment input.
- Disk and bucket state are explicit values threaded through the
  operations; operations that mutate state return the new state.
-/

/-- Prefix test on strings, by characters (Go strings.HasPrefix and
the prefix tests of path handling; Go works on bytes, which for the
paths involved coincides with characters). -/
def strPfx (p s : String) : Bool := p.data.isPrefixOf s.data

/-- Suffix test on strings, by characters (Go strings.HasSuffix). -/
def strSfx (suf s : String) : Bool := suf.data.isSuffixOf s.data

/-- Drop the first n characters of a string. -/
def strDrop (s : String) (n : Nat) : String := String.mk (s.data.drop n)

/-- Drop the last n characters of a string. -/
def strDropRight (s : String) (n : Nat) : String :=
  String.mk (s.data.take (s.data.length - n))

/-- Length of a string in characters. -/
def strLen (s : String) : Nat := s.data.length

/-- Model of Go strings.ToLower (ASCII case mapping; every key of the
content-type tables is ASCII). -/
def toLowerStr (s : String) : String := String.mk (s.data.map Char.toLower)

/-- Split a character list at a separator character. -/
def splitChars (sep : Char) : List Char → List (List Char)
  | [] => [[]]
  | c :: cs =>
    let r := splitChars sep cs
    if c = sep then [] :: r
    else
      match r with
      | h :: t => (c :: h) :: t
      | [] => [[c]]

/-- Split a string at every slash (Go strings.Split with "/"). -/
def splitOnSlash (s : String) : List String := (splitChars '/' s.data).map String.mk

/-- Join strings with slashes (Go strings.Join with "/"). -/
def intercalateSlash : List String → String
  | [] => ""
  | [a] => a
  | a :: rest => a ++ "/" ++ intercalateSlash rest

/-- One step of the element-processing loop of Go filepath.Clean
(Unix rules).  The accumulator holds output elements in reverse order:
empty and dot elements are dropped, a dotdot element pops a previous
real element, is kept when the output so far is only dotdots and the
path is not rooted, and is dropped at the root of a rooted path. -/
def cleanStep (rooted : Bool) (acc : List String) (seg : String) : List String :=
  if seg = "" || seg = "." then acc
  else if seg = ".." then
    match acc with
    | [] => if rooted then [] else [".."]
    | a :: rest => if a = ".." then ".." :: a :: rest else rest
  else seg :: acc

/-- Model of Go filepath.Clean for slash-separated (Unix) paths. -/
def cleanPath (path : String) : String :=
  if path = "" then "."
  else
    let rooted := strPfx "/" path
    let out := ((splitOnSlash path).foldl (cleanStep rooted) []).reverse
    let body := intercalateSlash out
    if rooted then
      if body = "" then "/" else "/" ++ body
    else
      if body = "" then "." else body

/-- Model of Go filepath.Join on two elements: leading empty elements
are skipped and the slash-joined remainder is cleaned. -/
def joinPath (a b : String) : String :=
  if a = "" then
    if b = "" then "" else cleanPath b
  else cleanPath (a ++ "/" ++ b)

/-- Model of Go filepath.Join on three elements. -/
def joinPath3 (a b c : String) : String :=
  if a = "" then
    if b = "" then
      if c = "" then "" else cleanPath c
    else cleanPath (b ++ "/" ++ c)
  else cleanPath (a ++ "/" ++ b ++ "/" ++ c)

/-- Model of Go filepath.Base. -/
def baseName (path : String) : String :=
  if path = "" then "."
  else
    let p := String.mk (path.data.reverse.dropWhile (fun c => c = '/')).reverse
    if p = "" then "/"
    else (splitOnSlash p).getLastD ""

/-- Model of Go filepath.Dir: everything up to and including the final
separator, cleaned. -/
def dirName (path : String) : String :=
  cleanPath (String.mk (path.data.reverse.dropWhile (fun c => c ≠ '/')).reverse)

/-- Model of Go filepath.Ext: the suffix starting at the final dot of
the final element, empty when that element has no dot. -/
def extName (path : String) : String :=
  let revTail := path.data.reverse.takeWhile (fun c => c ≠ '/')
  match revTail.findIdx? (fun c => c = '.') with
  | none => ""
  | some i => String.mk ((revTail.take (i + 1)).reverse)

/-- Model of Go strings.TrimPrefix. -/
def trimPrefixStr (s pre : String) : String :=
  if strPfx pre s then strDrop s (strLen pre) else s

/-- Model of Go strings.TrimSuffix. -/
def trimSuffixStr (s suf : String) : String :=
  if strSfx suf s then strDropRight s (strLen suf) else s

/-- Model of Go strings.TrimRight with cutset "/". -/
def trimRightSlashes (s : String) : String :=
  String.mk (s.data.reverse.dropWhile (fun c => c = '/')).reverse

/-- Model of Go strings.TrimLeft with cutset "/". -/
def trimLeftSlashes (s : String) : String :=
  String.mk (s.data.dropWhile (fun c => c = '/'))

/-- Model of Go strings.Contains. -/
def containsStr (s sub : String) : Bool :=
  s.data.tails.any (fun t => sub.data.isPrefixOf t)

/-- Embedding of sanitizePath (handler.go): Clean, then strip one
leading "../", then one leading "/". -/
def sanitizePath (path : String) : String :=
  let p := cleanPath path
  let p := trimPrefixStr p "../"
  trimPrefixStr p "/"

/-- Embedding of sanitizeFilename (handler.go): base name with the
problematic characters replaced by underscores. -/
def sanitizeFilename (filename : String) : String :=
  let f := baseName filename
  String.mk (f.data.map (fun c =>
    if c = '/' || c = '\\' || c = ':' || c = '*' || c = '?' || c = '"'
        || c = '<' || c = '>' || c = '|' || c = '%'
    then '_' else c))

/-- Embedding of the custom-path cleaning inside UploadHandler
(handler.go): Clean then strip one leading "../", applied only to a
nonempty form value. -/
def uploadCustomPath (customPath : String) : String :=
  if customPath = "" then customPath
  else trimPrefixStr (cleanPath customPath) "../"

/-- Destination path the upload handler passes to the provider: the
configured base path joined with the cleaned custom path and the
sanitized filename (handler.go, UploadHandler). -/
def uploadFullPath (bp customPath filename : String) : String :=
  joinPath3 bp (uploadCustomPath customPath) (sanitizeFilename filename)

/-- Embedding of LocalStorage.getContentType (local_storage.go): the
static extension-to-MIME switch, applied to the lowercased extension. -/
def getContentType (ext : String) : String :=
  match toLowerStr ext with
  | ".jpg" | ".jpeg" => "image/jpeg"
  | ".png" => "image/png"
  | ".gif" => "image/gif"
  | ".webp" => "image/webp"
  | ".svg" => "image/svg+xml"
  | ".pdf" => "application/pdf"
  | ".doc" => "application/msword"
  | ".docx" => "application/vnd.openxmlformats-officedocument.wordprocessingml.document"
  | ".xls" => "application/vnd.ms-excel"
  | ".xlsx" => "application/vnd.openxmlformats-officedocument.spreadsheetml.sheet"
  | ".txt" => "text/plain"
  | ".html" | ".htm" => "text/html"
  | ".css" => "text/css"
  | ".js" => "application/javascript"
  | ".json" => "application/json"
  | ".xml" => "application/xml"
  | ".zip" => "application/zip"
  | ".tar" => "application/x-tar"
  | ".gz" | ".gzip" => "application/gzip"
  | ".mp3" => "audio/mpeg"
  | ".mp4" => "video/mp4"
  | ".wav" => "audio/wav"
  | ".avi" => "video/x-msvideo"
  | ".mov" => "video/quicktime"
  | ".webm" => "video/webm"
  | _ => "application/octet-stream"

/-- Embedding of getContentTypeByExt (s3_storage.go): the S3 backend
has its own copy of the extension-to-MIME switch. -/
def getContentTypeByExt (ext : String) : String :=
  match toLowerStr ext with
  | ".jpg" | ".jpeg" => "image/jpeg"
  | ".png" => "image/png"
  | ".gif" => "image/gif"
  | ".webp" => "image/webp"
  | ".svg" => "image/svg+xml"
  | ".pdf" => "application/pdf"
  | ".doc" => "application/msword"
  | ".docx" => "application/vnd.openxmlformats-officedocument.wordprocessingml.document"
  | ".xls" => "application/vnd.ms-excel"
  | ".xlsx" => "application/vnd.openxmlformats-officedocument.spreadsheetml.sheet"
  | ".txt" => "text/plain"
  | ".html" | ".htm" => "text/html"
  | ".css" => "text/css"
  | ".js" => "application/javascript"
  | ".json" => "application/json"
  | ".xml" => "application/xml"
  | ".zip" => "application/zip"
  | ".tar" => "application/x-tar"
  | ".gz" | ".gzip" => "application/gzip"
  | ".mp3" => "audio/mpeg"
  | ".mp4" => "video/mp4"
  | ".wav" => "audio/wav"
  | ".avi" => "video/x-msvideo"
  | ".mov" => "video/quicktime"
  | ".webm" => "video/webm"
  | _ => "application/octet-stream"

/-- The lowercased extensions named by the content-type switch of
either backend. -/
def knownExtensions : List String :=
  [".jpg", ".jpeg", ".png", ".gif", ".webp", ".svg", ".pdf", ".doc",
   ".docx", ".xls", ".xlsx", ".txt", ".html", ".htm", ".css", ".js",
   ".json", ".xml", ".zip", ".tar", ".gz", ".gzip", ".mp3", ".mp4",
   ".wav", ".avi", ".mov", ".webm"]

/-- Embedding of AppError (errors/errors.go).  The wrapped internal Go
error is modeled by its message; Details is modeled as the list of
strings it carries where the code uses it (configuration errors). -/
structure AppError where
  code : String
  message : String
  httpCode : Nat
  details : List String := []
  internal : Option String := none
deriving Repr, DecidableEq

/-- Embedding of the statusToErrorCode map (errors/errors.go). -/
def statusToErrorCode (status : Nat) : Option String :=
  if status = 400 then some "BAD_REQUEST"
  else if status = 401 then some "UNAUTHORIZED"
  else if status = 403 then some "FORBIDDEN"
  else if status = 404 then some "NOT_FOUND"
  else if status = 409 then some "CONFLICT"
  else if status = 422 then some "VALIDATION_ERROR"
  else if status = 500 then some "INTERNAL_ERROR"
  else if status = 503 then some "SERVICE_UNAVAILABLE"
  else none

/-- Embedding of NewError (errors/errors.go): unmapped status codes
fall back to the internal-error code. -/
def newError (httpCode : Nat) (message : String) : AppError :=
  { code := (statusToErrorCode httpCode).getD "INTERNAL_ERROR",
    message := message, httpCode := httpCode }

/-- Embedding of NewErrorWithDetails (errors/errors.go). -/
def newErrorWithDetails (httpCode : Nat) (message : String)
    (details : List String) : AppError :=
  { newError httpCode message with details := details }

/-- Embedding of NewCustomError (errors/errors.go). -/
def newCustomError (httpCode : Nat) (code message : String) : AppError :=
  { code := code, message := message, httpCode := httpCode }

/-- Embedding of WrapError (errors/errors.go), the internal error
being carried as its message. -/
def wrapError (internalMsg : String) (httpCode : Nat) (message : String) : AppError :=
  { newError httpCode message with internal := some internalMsg }

/-- Embedding of FileNotFoundError (errors/errors.go). -/
def fileNotFoundError (path : String) : AppError :=
  newCustomError 404 "FILE_NOT_FOUND" ("File not found: " ++ path)

/-- File content: a Go byte slice. -/
abbrev Content := List Nat

/-- Embedding of FileInfo (the storage interface record).  The
LastModified timestamp is omitted from the model. -/
structure FileInfo where
  name : String
  size : Nat
  url : String
  contentType : String
  isDirectory : Bool
deriving Repr, DecidableEq

/-- What a stat of one disk path can see: a regular file with its
content, or a directory. -/
inductive StatKind where
  | file (c : Content)
  | dir
deriving Repr, DecidableEq

/-- Local disk state: regular files keyed by cleaned physical path,
plus the set of directories.  The working directory "." and the root
"/" always exist as directories. -/
structure LocalFS where
  files : List (String × Content)
  dirs : List String
deriving Repr, DecidableEq

/-- Model of os.Stat on the local disk state. -/
def statPath (fs : LocalFS) (p : String) : Option StatKind :=
  if p = "." || p = "/" then some .dir
  else
    match fs.files.lookup p with
    | some c => some (.file c)
    | none => if fs.dirs.contains p then some .dir else none

/-- The chain of paths os.MkdirAll would create for a cleaned path:
each proper prefix of its elements, outermost first. -/
def pathPrefixes (p : String) : List String :=
  if p = "/" || p = "." then []
  else
    let rooted := strPfx "/" p
    let segs := (splitOnSlash p).filter (fun s => s ≠ "")
    (List.range segs.length).map (fun i =>
      let pre := intercalateSlash (segs.take (i + 1))
      if rooted then "/" ++ pre else pre)

/-- Model of os.MkdirAll: fails when some prefix of the requested path
is a regular file, otherwise records every missing prefix as a
directory (all-or-nothing; the claims never rely on the partially
created prefixes Go leaves behind on failure). -/
def mkdirAll (fs : LocalFS) (d : String) : Option LocalFS :=
  let ps := pathPrefixes d
  if ps.any (fun q => (fs.files.lookup q).isSome) then none
  else some { fs with dirs := ps.filter (fun q => !(fs.dirs.contains q)) ++ fs.dirs }

/-- Model of os.Create followed by io.Copy: fails when the target is a
directory or its parent directory does not exist, otherwise stores the
bytes at the target path (shadowing any previous entry, as truncation
does). -/
def createFile (fs : LocalFS) (p : String) (c : Content) : Option LocalFS :=
  if fs.dirs.contains p then none
  else if statPath fs (dirName p) = some .dir then
    some { fs with files := (p, c) :: fs.files }
  else none

/-- Configuration of the local backend (LocalStorage). -/
structure LocalCfg where
  basePath : String
  baseURL : String
  createDirectories : Bool
deriving Repr, DecidableEq

/-- URL construction shared by the local-backend operations
(local_storage.go): the raw path unless a base URL is configured. -/
def localURL (cfg : LocalCfg) (path : String) : String :=
  if cfg.baseURL = "" then path
  else trimRightSlashes cfg.baseURL ++ "/" ++ trimLeftSlashes path

/-- An uploaded file as the handler hands it to a backend: the
declared original filename and the content bytes. -/
structure UploadFile where
  filename : String
  content : Content
deriving Repr, DecidableEq

/-- Embedding of LocalStorage.Upload (local_storage.go).  Returns the
resulting disk state together with the call result. -/
def localUpload (cfg : LocalCfg) (fs : LocalFS) (f : UploadFile) (path : String) :
    LocalFS × Except AppError FileInfo :=
  let fullPath := joinPath cfg.basePath path
  let dirStep : Except AppError LocalFS :=
    if cfg.createDirectories then
      match mkdirAll fs (dirName fullPath) with
      | some fs1 => .ok fs1
      | none =>
          .error (wrapError "mkdir: not a directory" 500
            ("Failed to create directory: " ++ dirName fullPath))
    else
      match statPath fs (dirName fullPath) with
      | none =>
          .error (wrapError "stat: no such file or directory" 400
            ("Directory does not exist: " ++ dirName fullPath))
      | some _ => .ok fs
  match dirStep with
  | .error e => (fs, .error e)
  | .ok fs1 =>
    match statPath fs1 fullPath with
    | some _ =>
        (fs1, .error (newCustomError 409 "FILE_ALREADY_EXISTS"
          ("File already exists: " ++ path)))
    | none =>
      match createFile fs1 fullPath f.content with
      | none =>
          (fs1, .error (wrapError "open: no such file or directory" 500
            ("Failed to create destination file: " ++ fullPath)))
      | some fs2 =>
          (fs2, .ok {
            name := baseName path,
            size := f.content.length,
            url := localURL cfg path,
            contentType := getContentType (extName fullPath),
            isDirectory := false })

/-- Embedding of LocalStorage.Get (local_storage.go): the returned
stream is modeled by the file bytes. -/
def localGet (cfg : LocalCfg) (fs : LocalFS) (path : String) :
    Except AppError (Content × FileInfo) :=
  let fullPath := joinPath cfg.basePath path
  match statPath fs fullPath with
  | none => .error (fileNotFoundError path)
  | some .dir =>
      .error (newCustomError 400 "INVALID_PATH"
        ("Path is a directory, not a file: " ++ path))
  | some (.file c) =>
      .ok (c, {
        name := baseName path,
        size := c.length,
        url := localURL cfg path,
        contentType := getContentType (extName fullPath),
        isDirectory := false })

/-- Embedding of LocalStorage.Delete (local_storage.go). -/
def localDelete (cfg : LocalCfg) (fs : LocalFS) (path : String) :
    LocalFS × Except AppError Unit :=
  let fullPath := joinPath cfg.basePath path
  match statPath fs fullPath with
  | none => (fs, .error (fileNotFoundError path))
  | some .dir =>
      (fs, .error (newCustomError 400 "INVALID_PATH"
        ("Cannot delete a directory with this method: " ++ path)))
  | some (.file _) =>
      ({ fs with files := fs.files.filter (fun e => e.1 ≠ fullPath) }, .ok ())

/-- Embedding of LocalStorage.Exists (local_storage.go), for the disk
state model in which stat itself cannot fail. -/
def localExists (cfg : LocalCfg) (fs : LocalFS) (path : String) :
    Except AppError Bool :=
  match statPath fs (joinPath cfg.basePath path) with
  | some _ => .ok true
  | none => .ok false

/-- A stored S3 object: content bytes and the content type recorded at
put time (nil-able in the SDK, hence optional). -/
structure S3Object where
  content : Content
  contentType : Option String
deriving Repr, DecidableEq

/-- Bucket state: objects keyed by full key. -/
structure S3State where
  objects : List (String × S3Object)
deriving Repr, DecidableEq

/-- Configuration of the S3 backend (S3Storage).  The basePrefix field
of the Go struct is modeled as keyPfx. -/
structure S3Cfg where
  bucket : String
  keyPfx : String
  baseURL : String
  region : String
deriving Repr, DecidableEq

/-- Embedding of S3Storage.getFullKey (s3_storage.go). -/
def getFullKey (cfg : S3Cfg) (path : String) : String :=
  if cfg.keyPfx = "" then path
  else joinPath cfg.keyPfx path

/-- Embedding of S3Storage.getURL (s3_storage.go). -/
def s3URL (cfg : S3Cfg) (key : String) : String :=
  if cfg.baseURL ≠ "" then
    trimRightSlashes cfg.baseURL ++ "/" ++ trimLeftSlashes key
  else if cfg.region = "" then
    "https://" ++ cfg.bucket ++ ".s3.amazonaws.com/" ++ key
  else
    "https://" ++ cfg.bucket ++ ".s3." ++ cfg.region ++ ".amazonaws.com/" ++ key

/-- The error message the AWS SDK produces for a HeadObject on a
missing key; the code classifies it by substring search. -/
def s3NotFoundMsg : String :=
  "operation error S3: HeadObject, https response error StatusCode: 404, NotFound"

/-- Model of the HeadObject call on the bucket state: the stored
object, or the SDK not-found error message. -/
def headObject (st : S3State) (key : String) : Except String S3Object :=
  match st.objects.lookup key with
  | some o => .ok o
  | none => .error s3NotFoundMsg

/-- The not-found classification used by the S3 backend: substring
search for NotFound or 404 on the error text (s3_storage.go). -/
def s3IsNotFoundErr (msg : String) : Bool :=
  containsStr msg "NotFound" || containsStr msg "404"

/-- Embedding of the branch structure of S3Storage.Exists
(s3_storage.go) over an arbitrary HeadObject outcome. -/
def s3ExistsFromHead (path : String) (r : Except String S3Object) :
    Except AppError Bool :=
  match r with
  | .ok _ => .ok true
  | .error msg =>
      if s3IsNotFoundErr msg then .ok false
      else .error (wrapError msg 500
        ("Failed to check if file exists in S3: " ++ path))

/-- Embedding of S3Storage.Exists (s3_storage.go) on the bucket state. -/
def s3Exists (cfg : S3Cfg) (st : S3State) (path : String) : Except AppError Bool :=
  s3ExistsFromHead path (headObject st (getFullKey cfg path))

/-- Embedding of the branch structure of LocalStorage.Exists
(local_storage.go) over an arbitrary os.Stat outcome: a stat success,
a does-not-exist error, or any other error with its message. -/
inductive GoStatResult where
  | found (k : StatKind)
  | notExist
  | otherError (msg : String)
deriving Repr, DecidableEq

/-- Embedding of LocalStorage.Exists (local_storage.go) over an
arbitrary os.Stat outcome. -/
def localExistsFromStat (path : String) (r : GoStatResult) : Except AppError Bool :=
  match r with
  | .found _ => .ok true
  | .notExist => .ok false
  | .otherError msg =>
      .error (wrapError msg 500 ("Failed to check file existence: " ++ path))

/-- The object URL the SDK reports for a completed upload (virtual
hosted style), used when no base URL override is configured. -/
def sdkUploadLocation (cfg : S3Cfg) (key : String) : String :=
  "https://" ++ cfg.bucket ++ ".s3.amazonaws.com/" ++ key

/-- Embedding of S3Storage.Upload (s3_storage.go).  The byte sniffing
of http.DetectContentType is a parameter (sniff); the code falls back
to the extension table when sniffing reports octet-stream.  Returns
the resulting bucket state together with the call result. -/
def s3Upload (cfg : S3Cfg) (sniff : Content → String) (st : S3State)
    (f : UploadFile) (path : String) : S3State × Except AppError FileInfo :=
  let contentType0 := sniff f.content
  let contentType :=
    if strPfx "application/octet-stream" contentType0 then
      getContentTypeByExt (extName f.filename)
    else contentType0
  let fullKey := getFullKey cfg path
  match s3Exists cfg st path with
  | .error e =>
      (st, .error { wrapError (e.message) 500 "Failed to check if file exists" with
                      internal := some e.message })
  | .ok true =>
      (st, .error (newCustomError 409 "FILE_ALREADY_EXISTS"
        ("File already exists: " ++ path)))
  | .ok false =>
      let st1 : S3State :=
        { objects := (fullKey, { content := f.content, contentType := some contentType }) :: st.objects }
      let fileURL :=
        if cfg.baseURL ≠ "" then s3URL cfg fullKey
        else sdkUploadLocation cfg fullKey
      (st1, .ok {
        name := baseName path,
        size := f.content.length,
        url := fileURL,
        contentType := contentType,
        isDirectory := false })

/-- Embedding of S3Storage.GetInfo (s3_storage.go). -/
def s3GetInfo (cfg : S3Cfg) (st : S3State) (path : String) :
    Except AppError FileInfo :=
  let fullKey := getFullKey cfg path
  match headObject st fullKey with
  | .error msg =>
      if s3IsNotFoundErr msg then .error (fileNotFoundError path)
      else .error (wrapError msg 500
        ("Failed to get file metadata from S3: " ++ path))
  | .ok o =>
      let contentType :=
        match o.contentType with
        | some ct => ct
        | none => getContentTypeByExt (extName path)
      .ok {
        name := baseName path,
        size := o.content.length,
        url := s3URL cfg fullKey,
        contentType := contentType,
        isDirectory := false }

/-- Embedding of S3Storage.Get (s3_storage.go): HeadObject first (its
failure classified as for Exists), then GetObject, whose body models
the returned stream; the FileInfo size comes from the head content
length and the content type from the object, defaulting to
octet-stream when the stored object carries none. -/
def s3Get (cfg : S3Cfg) (st : S3State) (path : String) :
    Except AppError (Content × FileInfo) :=
  let fullKey := getFullKey cfg path
  match headObject st fullKey with
  | .error msg =>
      if s3IsNotFoundErr msg then .error (fileNotFoundError path)
      else .error (wrapError msg 500
        ("Failed to get file metadata from S3: " ++ path))
  | .ok o =>
      let contentType :=
        match o.contentType with
        | some ct => ct
        | none => "application/octet-stream"
      .ok (o.content, {
        name := baseName path,
        size := o.content.length,
        url := s3URL cfg fullKey,
        contentType := contentType,
        isDirectory := false })

/-- Embedding of S3Storage.Delete (s3_storage.go).  Returns the
resulting bucket state together with the call result. -/
def s3Delete (cfg : S3Cfg) (st : S3State) (path : String) :
    S3State × Except AppError Unit :=
  let fullKey := getFullKey cfg path
  match s3Exists cfg st path with
  | .error e =>
      (st, .error { wrapError (e.message) 500
                      ("Failed to check if file exists: " ++ path) with
                    internal := some e.message })
  | .ok false => (st, .error (fileNotFoundError path))
  | .ok true =>
      ({ objects := st.objects.filter (fun e => e.1 ≠ fullKey) }, .ok ())

/-- The synthetic directory prefix ListObjectsV2 folds a key into: the
request prefix extended to the next delimiter, inclusive. -/
def listCommonPfx (pfx k : String) : String :=
  pfx ++ String.mk ((strDrop k (strLen pfx)).data.takeWhile (fun c => c ≠ '/')) ++ "/"

/-- Model of the ListObjectsV2 call with delimiter "/": keys under the
prefix with no further delimiter are contents; the rest are folded
into deduplicated common prefixes.  Results are in stored order (no
verified property depends on S3 ordering). -/
def listObjectsV2 (st : S3State) (pfx : String) :
    List String × List (String × S3Object) :=
  let matching := st.objects.filter (fun e => strPfx pfx e.1)
  let contents := matching.filter (fun e =>
    !((strDrop e.1 (strLen pfx)).data.contains '/'))
  let withDelim := matching.filter (fun e =>
    (strDrop e.1 (strLen pfx)).data.contains '/')
  let cps := (withDelim.map (fun e => listCommonPfx pfx e.1)).foldl
    (fun acc q => if acc.contains q then acc else acc ++ [q]) []
  (cps, contents)

/-- Embedding of S3Storage.List (s3_storage.go): common prefixes become
synthetic directory records, direct keys become file records, and an
empty result falls back to a single GetInfo record only when the
effective prefix does not end in a slash. -/
def s3List (cfg : S3Cfg) (st : S3State) (path : String) :
    Except AppError (List FileInfo) :=
  let fp0 := getFullKey cfg path
  let fp1 := if fp0 ≠ "" && !(strSfx "/" fp0) then fp0 ++ "/" else fp0
  let fullPfx :=
    if path = "" || path = "/" then
      (if cfg.keyPfx ≠ "" && !(strSfx "/" cfg.keyPfx) then cfg.keyPfx ++ "/"
       else cfg.keyPfx)
    else fp1
  let r := listObjectsV2 st fullPfx
  let dirRecords := r.1.map (fun p => {
    name := baseName (trimSuffixStr p "/"),
    size := 0,
    url := s3URL cfg p,
    contentType := "application/directory",
    isDirectory := true : FileInfo })
  let fileRecords := r.2.filterMap (fun e =>
    if strSfx "/" e.1 then none
    else if e.1 = fullPfx then none
    else some {
      name := baseName e.1,
      size := e.2.content.length,
      url := s3URL cfg e.1,
      contentType := getContentTypeByExt (extName (baseName e.1)),
      isDirectory := false : FileInfo })
  let files := dirRecords ++ fileRecords
  if files.isEmpty && !(strSfx "/" fullPfx) then
    match s3GetInfo cfg st path with
    | .ok fi => .ok [fi]
    | .error _ => .ok files
  else .ok files

/-- Embedding of the filesystem Config fields consulted by Validate
and by the factory dispatch. -/
structure Config where
  storageType : String
  s3Endpoint : String
  s3AccessKey : String
  s3SecretKey : String
  s3Bucket : String
  uploadMaxSizeMB : Int
  timeoutSecs : Int
deriving Repr, DecidableEq

/-- Embedding of Config.Validate.  Error-message texts follow the
source with quote characters elided. -/
def validateConfig (c : Config) : List String :=
  let errs : List String := []
  let errs :=
    if c.storageType ≠ "local" && c.storageType ≠ "s3" then
      errs ++ ["Invalid storage type. Must be local or s3"]
    else errs
  let errs :=
    if c.storageType = "s3" then
      let errs :=
        if c.s3Bucket = "" then
          errs ++ ["S3 bucket name is required when using S3 storage"]
        else errs
      if c.s3Endpoint ≠ "" then
        let errs :=
          if c.s3AccessKey = "" then
            errs ++ ["S3 access key is required when using a custom S3 endpoint"]
          else errs
        if c.s3SecretKey = "" then
          errs ++ ["S3 secret key is required when using a custom S3 endpoint"]
        else errs
      else errs
    else errs
  let errs :=
    if c.uploadMaxSizeMB ≤ 0 then
      errs ++ ["Upload max size must be greater than 0"]
    else errs
  if c.timeoutSecs ≤ 0 then
    errs ++ ["Timeout seconds must be greater than 0"]
  else errs

/-- Which backend the factory constructed. -/
inductive BackendKind where
  | s3Backend
  | localBackend
deriving Repr, DecidableEq

/-- Embedding of NewStorageProvider (factory.go).  Construction of the
concrete backends (NewS3Storage and NewLocalStorage, including the
AWS-config loading folded into the former) is abstracted by the
outcome arguments mkS3 and mkLocal, consulted exactly where the code
calls the constructors. -/
def newStorageProvider (mkS3 mkLocal : Except AppError Unit) (cfg : Config) :
    Except AppError BackendKind :=
  let errs := validateConfig cfg
  if errs.length > 0 then
    .error (newErrorWithDetails 400 "Invalid filesystem configuration" errs)
  else
    match cfg.storageType with
    | "s3" =>
        (match mkS3 with
         | .ok _ => .ok .s3Backend
         | .error e => .error e)
    | "local" | "" =>
        (match mkLocal with
         | .ok _ => .ok .localBackend
         | .error e => .error (wrapError e.message 500 "Failed to initialize local storage"))
    | other => .error (newError 400 ("Unsupported storage type: " ++ other))

/-- Looking up a key in an association list from which every entry with
that key was removed yields nothing. -/
theorem lookup_filter_ne {α : Type} (l : List (String × α)) (k : String) :
    (l.filter (fun e => e.1 ≠ k)).lookup k = none := by
  induction l with
  | nil => rfl
  | cons a l ih =>
    by_cases h : a.1 = k
    · simpa [List.filter, h] using ih
    · have hd : (decide (a.1 ≠ k)) = true := by simpa using h
      have hne : (k == a.1) = false := by
        simp [beq_eq_false_iff_ne]
        exact fun e => h e.symm
      simp [List.filter, hd, List.lookup, hne, ih]
      exact fun x b _ hxk e => hxk e.symm

/-- The SDK not-found message is classified as not-found by the
substring check of the S3 backend. -/
theorem s3IsNotFoundErr_sdkMsg : s3IsNotFoundErr s3NotFoundMsg = true := by decide

/-- MkdirAll leaves the disk unchanged when every prefix of the
requested directory already exists as a directory and none is a file. -/
theorem mkdirAll_noop (fs : LocalFS) (d : String)
    (h1 : (pathPrefixes d).all (fun q => (fs.files.lookup q).isNone) = true)
    (h2 : (pathPrefixes d).all (fun q => fs.dirs.contains q) = true) :
    mkdirAll fs d = some fs := by
  unfold mkdirAll
  have hany : (pathPrefixes d).any (fun q => (fs.files.lookup q).isSome) = false := by
    rw [List.any_eq_false]
    intro q hq
    have := (List.all_eq_true.mp h1) q hq
    simp_all
    exact fun x hx => this q x hx rfl
  have hfil : (pathPrefixes d).filter (fun q => !(fs.dirs.contains q)) = [] := by
    rw [List.filter_eq_nil_iff]
    intro q hq
    have := (List.all_eq_true.mp h2) q hq
    simp_all
  simp only [hany, Bool.false_eq_true, if_false, hfil, List.nil_append]

/-- A path that stat reports as absent is not the working directory or
the root, holds no file and is recorded as no directory. -/
theorem statPath_none_elim (fs : LocalFS) (p : String)
    (h : statPath fs p = none) :
    (p = "." || p = "/") = false ∧ fs.files.lookup p = none ∧
      fs.dirs.contains p = false := by
  unfold statPath at h
  split at h
  · exact absurd h (by simp)
  · rename_i hroot
    constructor
    · simpa using hroot
    · cases hlk : fs.files.lookup p with
      | some c => rw [hlk] at h; exact absurd h (by simp)
      | none =>
        rw [hlk] at h
        constructor
        · rfl
        · by_cases hd : fs.dirs.contains p = true
          · rw [hd] at h; exact absurd h (by simp)
          · simpa using hd

/-- Claim C1: the handler-layer sanitization is claimed to confine
every caller-supplied path under the configured root.  It does not:
Clean leaves chained parent segments intact and TrimPrefix removes
only one leading "../", so "../../secret" sanitizes to "../secret",
which still begins with a parent-directory segment; the upload
handler's custom-path cleaning passes "../secret/f.txt" to the
provider when the handler base path is empty (its default); and
joining a sanitized path under a two-element root still escapes it. -/
theorem sanitizePath_admits_traversal :
    sanitizePath "../../secret" = "../secret" ∧
    strPfx "../" (sanitizePath "../../secret") = true ∧
    uploadFullPath "" "../../secret" "f.txt" = "../secret/f.txt" ∧
    joinPath "storage/uploads" (sanitizePath "../../../../secret") = "../secret" := by
  refine ⟨?_, ?_, ?_, ?_⟩ <;> rfl

/-- Claim C2: on both backends, Upload to a path that already holds an
object fails with the 409 FILE_ALREADY_EXISTS error and returns the
storage state unchanged, so the stored bytes are untouched.  The local
half assumes the parent-directory chain of the occupied path is
consistent (its prefixes are directories, not files), which holds of
any disk state reachable by the code. -/
theorem upload_preserves_existing_object :
    (∀ (cfg : LocalCfg) (fs : LocalFS) (f : UploadFile) (path : String) (c : Content),
      fs.files.lookup (joinPath cfg.basePath path) = some c →
      (pathPrefixes (dirName (joinPath cfg.basePath path))).all
          (fun q => (fs.files.lookup q).isNone) = true →
      (pathPrefixes (dirName (joinPath cfg.basePath path))).all
          (fun q => fs.dirs.contains q) = true →
      statPath fs (dirName (joinPath cfg.basePath path)) = some .dir →
      localUpload cfg fs f path =
        (fs, .error (newCustomError 409 "FILE_ALREADY_EXISTS"
          ("File already exists: " ++ path)))) ∧
    (∀ (cfg : S3Cfg) (sniff : Content → String) (st : S3State) (f : UploadFile)
        (path : String) (o : S3Object),
      st.objects.lookup (getFullKey cfg path) = some o →
      s3Upload cfg sniff st f path =
        (st, .error (newCustomError 409 "FILE_ALREADY_EXISTS"
          ("File already exists: " ++ path)))) := by
  constructor
  · intro cfg fs f path c hc h1 h2 hdir
    have hmk := mkdirAll_noop fs (dirName (joinPath cfg.basePath path)) h1 h2
    have hfull : ∃ k, statPath fs (joinPath cfg.basePath path) = some k := by
      unfold statPath
      split
      · exact ⟨.dir, rfl⟩
      · rw [hc]; exact ⟨.file c, rfl⟩
    obtain ⟨k, hk⟩ := hfull
    by_cases hcd : cfg.createDirectories = true
    · simp only [localUpload, hcd, if_true, hmk, hk]
    · simp only [localUpload, hcd, Bool.false_eq_true, if_false, hdir, hk]
  · intro cfg sniff st f path o ho
    simp only [s3Upload, s3Exists, headObject, ho, s3ExistsFromHead]

/-- Witness for claim C2 at a concrete disk and bucket. -/
theorem upload_preserves_existing_object_witness :
    localUpload { basePath := "storage", baseURL := "", createDirectories := true }
        { files := [("storage/a/b.txt", [1, 2, 3])], dirs := ["storage", "storage/a"] }
        { filename := "b.txt", content := [9] } "a/b.txt" =
      ({ files := [("storage/a/b.txt", [1, 2, 3])], dirs := ["storage", "storage/a"] },
       .error (newCustomError 409 "FILE_ALREADY_EXISTS"
         ("File already exists: " ++ "a/b.txt"))) ∧
    s3Upload { bucket := "bkt", keyPfx := "", baseURL := "", region := "" }
        (fun _ => "text/plain")
        { objects := [("a.txt", { content := [1, 2], contentType := some "text/plain" })] }
        { filename := "a.txt", content := [9] } "a.txt" =
      ({ objects := [("a.txt", { content := [1, 2], contentType := some "text/plain" })] },
       .error (newCustomError 409 "FILE_ALREADY_EXISTS"
         ("File already exists: " ++ "a.txt"))) :=
  ⟨upload_preserves_existing_object.1
      { basePath := "storage", baseURL := "", createDirectories := true }
      { files := [("storage/a/b.txt", [1, 2, 3])], dirs := ["storage", "storage/a"] }
      { filename := "b.txt", content := [9] } "a/b.txt" [1, 2, 3]
      (by decide) (by decide) (by decide) (by decide),
   upload_preserves_existing_object.2
      { bucket := "bkt", keyPfx := "", baseURL := "", region := "" }
      (fun _ => "text/plain")
      { objects := [("a.txt", { content := [1, 2], contentType := some "text/plain" })] }
      { filename := "a.txt", content := [9] } "a.txt"
      { content := [1, 2], contentType := some "text/plain" } (by decide)⟩

/-- Claim C3: on both backends, a successful Upload followed
immediately by Get on the same path returns a stream of exactly the
uploaded bytes and a FileInfo whose Size is the byte length of the
content.  For the local backend the Get FileInfo is moreover identical
to the one Upload returned; for the S3 backend the record agrees on
name, size, content type and directory flag (the URL Upload reports is
the SDK upload location, which the code only replaces by the
constructed URL when a base URL override is set, so the two URLs can
legitimately differ and the claim does not mention them). -/
theorem upload_get_roundtrip :
    (∀ (cfg : LocalCfg) (fs : LocalFS) (f : UploadFile) (path : String)
        (fs' : LocalFS) (fi : FileInfo),
      localUpload cfg fs f path = (fs', .ok fi) →
      localGet cfg fs' path = .ok (f.content, fi) ∧ fi.size = f.content.length) ∧
    (∀ (cfg : S3Cfg) (sniff : Content → String) (st : S3State) (f : UploadFile)
        (path : String) (st' : S3State) (fi : FileInfo),
      s3Upload cfg sniff st f path = (st', .ok fi) →
      s3Get cfg st' path = .ok (f.content,
        { name := baseName path, size := f.content.length,
          url := s3URL cfg (getFullKey cfg path),
          contentType := fi.contentType, isDirectory := false }) ∧
      fi.size = f.content.length) := by
  constructor
  · intro cfg fs f path fs' fi h
    simp only [localUpload] at h
    split at h
    · exact absurd h (by simp)
    · rename_i fs1 hdirstep
      split at h
      · exact absurd h (by simp)
      · rename_i hstat
        split at h
        · exact absurd h (by simp)
        · rename_i fs2 hcf
          injection h with hfs hres
          injection hres with hfi
          subst hfs
          subst hfi
          unfold createFile at hcf
          split at hcf
          · exact absurd hcf (by simp)
          · split at hcf
            · injection hcf with hfs2
              subst hfs2
              have hne := statPath_none_elim fs1 _ hstat
              constructor
              · simp only [localGet, statPath, hne.1, Bool.false_eq_true, if_false,
                  List.lookup, beq_self_eq_true]
              · rfl
            · exact absurd hcf (by simp)
  · intro cfg sniff st f path st' fi h
    simp only [s3Upload] at h
    split at h
    · exact absurd h (by simp)
    · exact absurd h (by simp)
    · injection h with hst hres
      injection hres with hfi
      subst hst
      subst hfi
      constructor
      · simp only [s3Get, headObject, List.lookup, beq_self_eq_true]
      · rfl

/-- Witness for claim C3: a concrete upload into an empty tree and an
empty bucket, each read back by Get. -/
theorem upload_get_roundtrip_witness :
    (localGet { basePath := "storage", baseURL := "", createDirectories := true }
        { files := [("storage/a/b.txt", [9, 9])], dirs := ["storage/a", "storage"] }
        "a/b.txt" =
      .ok ([9, 9], { name := "b.txt", size := 2, url := "a/b.txt",
                     contentType := "text/plain", isDirectory := false }) ∧
     FileInfo.size { name := "b.txt", size := 2, url := "a/b.txt",
                     contentType := "text/plain", isDirectory := false } = 2) ∧
    (s3Get { bucket := "bkt", keyPfx := "", baseURL := "", region := "" }
        { objects := [("a/b.txt", { content := [9, 9], contentType := some "text/plain" })] }
        "a/b.txt" =
      .ok ([9, 9],
        { name := baseName "a/b.txt", size := 2,
          url := s3URL { bucket := "bkt", keyPfx := "", baseURL := "", region := "" }
            (getFullKey { bucket := "bkt", keyPfx := "", baseURL := "", region := "" } "a/b.txt"),
          contentType := FileInfo.contentType
            { name := "b.txt", size := 2, url := "https://bkt.s3.amazonaws.com/a/b.txt",
              contentType := "text/plain", isDirectory := false },
          isDirectory := false }) ∧
     FileInfo.size { name := "b.txt", size := 2, url := "https://bkt.s3.amazonaws.com/a/b.txt",
                     contentType := "text/plain", isDirectory := false } = 2) :=
  ⟨upload_get_roundtrip.1
      { basePath := "storage", baseURL := "", createDirectories := true }
      { files := [], dirs := ["storage"] }
      { filename := "b.txt", content := [9, 9] } "a/b.txt"
      { files := [("storage/a/b.txt", [9, 9])], dirs := ["storage/a", "storage"] }
      { name := "b.txt", size := 2, url := "a/b.txt",
        contentType := "text/plain", isDirectory := false }
      (by rfl),
   upload_get_roundtrip.2
      { bucket := "bkt", keyPfx := "", baseURL := "", region := "" }
      (fun _ => "text/plain") { objects := [] }
      { filename := "b.txt", content := [9, 9] } "a/b.txt"
      { objects := [("a/b.txt", { content := [9, 9], contentType := some "text/plain" })] }
      { name := "b.txt", size := 2, url := "https://bkt.s3.amazonaws.com/a/b.txt",
        contentType := "text/plain", isDirectory := false }
      (by rfl)⟩

/-- Claim C4: after a successful local Delete the same path no longer
exists (Exists answers false without error) and Get on it fails with
the FILE_NOT_FOUND error.  The hypothesis that no directory is
recorded at the deleted file path holds of any disk state a real
filesystem can be in. -/
theorem local_delete_then_gone (cfg : LocalCfg) (fs : LocalFS) (path : String)
    (fs' : LocalFS)
    (hdel : localDelete cfg fs path = (fs', .ok ()))
    (hnd : fs.dirs.contains (joinPath cfg.basePath path) = false) :
    localExists cfg fs' path = .ok false ∧
    localGet cfg fs' path = .error (fileNotFoundError path) := by
  simp only [localDelete] at hdel
  split at hdel
  · exact absurd hdel (by simp)
  · exact absurd hdel (by simp)
  · rename_i c hstat
    injection hdel with hfs hres
    subst hfs
    have hroot : (joinPath cfg.basePath path = "." || joinPath cfg.basePath path = "/") = false := by
      unfold statPath at hstat
      split at hstat
      · exact absurd hstat (by simp)
      · rename_i hr; simpa using hr
    have hlk := lookup_filter_ne fs.files (joinPath cfg.basePath path)
    constructor
    · simp only [localExists, statPath, hroot, Bool.false_eq_true, if_false, hlk, hnd]
    · simp only [localGet, statPath, hroot, Bool.false_eq_true, if_false, hlk, hnd]

/-- Witness for claim C4 at a concrete one-file disk. -/
theorem local_delete_then_gone_witness :
    localExists { basePath := "storage", baseURL := "", createDirectories := true }
        { files := [], dirs := ["storage"] } "a.txt" = .ok false ∧
    localGet { basePath := "storage", baseURL := "", createDirectories := true }
        { files := [], dirs := ["storage"] } "a.txt" =
      .error (fileNotFoundError "a.txt") :=
  local_delete_then_gone
    { basePath := "storage", baseURL := "", createDirectories := true }
    { files := [("storage/a.txt", [1])], dirs := ["storage"] } "a.txt"
    { files := [], dirs := ["storage"] }
    (by rfl) (by decide)

/-- Claim C5: the spec claims List on a plain-file path returns exactly
one record for both backends, and the S3 backend even carries a
single-file fallback intended for that case; but the effective prefix
is always given a trailing slash before the fallback condition
(not ends-with-slash) is tested, so the fallback is unreachable and
S3 List on a plain-file path returns the empty list.  Evaluation of
the embedded code at the failing input. -/
theorem s3_list_plain_file_returns_empty :
    s3List { bucket := "bkt", keyPfx := "", baseURL := "", region := "" }
        { objects := [("a.txt", { content := [1, 2], contentType := some "text/plain" })] }
        "a.txt"
      = .ok [] := by
  rfl

/-- Claim C6: content-type inference from an extension is a
deterministic pure function and the two backend tables agree on every
extension string; ".pdf" and ".json" map as specified and every
extension whose lowercase form is outside the table maps to
"application/octet-stream". -/
theorem content_type_inference_deterministic :
    (∀ ext : String, getContentType ext = getContentTypeByExt ext) ∧
    getContentType ".pdf" = "application/pdf" ∧
    getContentType ".json" = "application/json" ∧
    getContentTypeByExt ".pdf" = "application/pdf" ∧
    getContentTypeByExt ".json" = "application/json" ∧
    (∀ ext : String, knownExtensions.contains (toLowerStr ext) = false →
      getContentType ext = "application/octet-stream") := by
  refine ⟨fun ext => rfl, rfl, rfl, rfl, rfl, ?_⟩
  intro ext h
  unfold getContentType
  split <;> first
    | rfl
    | (rename_i heq; rw [heq] at h; simp [knownExtensions] at h)

/-- Witness for claim C6: a concrete unknown extension falls through
to the generic type. -/
theorem content_type_inference_deterministic_witness :
    knownExtensions.contains (toLowerStr ".foo") = false ∧
    getContentType ".foo" = "application/octet-stream" :=
  ⟨by decide, content_type_inference_deterministic.2.2.2.2.2 ".foo" (by decide)⟩

/-- Claim C7: for both backends Exists treats absence as a normal
negative result and propagates every other failure.  Stated over the
full branch structure of the two implementations: a stat or head
success answers true; a not-found outcome (for S3, an error text the
substring check classifies as not-found) answers false with no error;
any other failure is returned as an error; and on the state models, a
missing path or key answers false with no error. -/
theorem exists_absence_policy :
    (∀ path : String, localExistsFromStat path .notExist = .ok false) ∧
    (∀ (path : String) (k : StatKind), localExistsFromStat path (.found k) = .ok true) ∧
    (∀ path msg : String,
      localExistsFromStat path (.otherError msg) =
        .error (wrapError msg 500 ("Failed to check file existence: " ++ path))) ∧
    (∀ path msg : String, s3IsNotFoundErr msg = true →
      s3ExistsFromHead path (.error msg) = .ok false) ∧
    (∀ path msg : String, s3IsNotFoundErr msg = false →
      s3ExistsFromHead path (.error msg) =
        .error (wrapError msg 500 ("Failed to check if file exists in S3: " ++ path))) ∧
    (∀ (path : String) (o : S3Object), s3ExistsFromHead path (.ok o) = .ok true) ∧
    (∀ (cfg : S3Cfg) (st : S3State) (path : String),
      st.objects.lookup (getFullKey cfg path) = none →
      s3Exists cfg st path = .ok false) ∧
    (∀ (cfg : LocalCfg) (fs : LocalFS) (path : String),
      statPath fs (joinPath cfg.basePath path) = none →
      localExists cfg fs path = .ok false) := by
  refine ⟨fun _ => rfl, fun _ _ => rfl, fun _ _ => rfl, ?_, ?_, fun _ _ => rfl, ?_, ?_⟩
  · intro path msg h
    simp only [s3ExistsFromHead, h, if_true]
  · intro path msg h
    simp only [s3ExistsFromHead, h, Bool.false_eq_true, if_false]
  · intro cfg st path h
    simp only [s3Exists, headObject, h, s3ExistsFromHead, s3IsNotFoundErr_sdkMsg, if_true]
  · intro cfg fs path h
    simp only [localExists, h]

/-- Witness for claim C7 at concrete outcomes and states. -/
theorem exists_absence_policy_witness :
    s3ExistsFromHead "p" (.error s3NotFoundMsg) = .ok false ∧
    s3ExistsFromHead "p" (.error "access denied") =
      .error (wrapError "access denied" 500
        ("Failed to check if file exists in S3: " ++ "p")) ∧
    s3Exists { bucket := "bkt", keyPfx := "", baseURL := "", region := "" }
        { objects := [] } "x" = .ok false ∧
    localExists { basePath := "storage", baseURL := "", createDirectories := true }
        { files := [], dirs := [] } "x" = .ok false :=
  ⟨exists_absence_policy.2.2.2.1 "p" s3NotFoundMsg (by decide),
   exists_absence_policy.2.2.2.2.1 "p" "access denied" (by decide),
   exists_absence_policy.2.2.2.2.2.2.1
      { bucket := "bkt", keyPfx := "", baseURL := "", region := "" }
      { objects := [] } "x" (by decide),
   exists_absence_policy.2.2.2.2.2.2.2
      { basePath := "storage", baseURL := "", createDirectories := true }
      { files := [], dirs := [] } "x" (by decide)⟩

/-- Counterexample for claim C8: with one object stored at key
"d/f.txt", the logical path "d" refers to a directory (List would
synthesize a directory record for it), yet S3 Delete on "d" fails with
the FILE_NOT_FOUND error, not the INVALID_PATH error the claim
requires of both backends. -/
theorem s3_delete_directory_notfound_counterexample :
    s3Delete { bucket := "bkt", keyPfx := "", baseURL := "", region := "" }
        { objects := [("d/f.txt", { content := [1], contentType := none })] } "d"
      = ({ objects := [("d/f.txt", { content := [1], contentType := none })] },
         .error (fileNotFoundError "d")) ∧
    s3List { bucket := "bkt", keyPfx := "", baseURL := "", region := "" }
        { objects := [("d/f.txt", { content := [1], contentType := none })] } ""
      = .ok [{ name := "d", size := 0, url := "https://bkt.s3.amazonaws.com/d/",
               contentType := "application/directory", isDirectory := true }] ∧
    (fileNotFoundError "d").code = "FILE_NOT_FOUND" ∧
    ¬ (fileNotFoundError "d").code = "INVALID_PATH" := by
  refine ⟨?_, ?_, rfl, by decide⟩ <;> rfl

/-- Claim C8 as amended: Delete on a nonexistent path fails with
FILE_NOT_FOUND on both backends, removing nothing; the local backend
fails with INVALID_PATH on a directory path, removing nothing; the S3
backend, whose directories exist only as key prefixes, answers
FILE_NOT_FOUND on any path with no object at the exact key (logical
directory paths included), removing nothing. -/
theorem delete_failure_modes :
    (∀ (cfg : LocalCfg) (fs : LocalFS) (path : String),
      statPath fs (joinPath cfg.basePath path) = none →
      localDelete cfg fs path = (fs, .error (fileNotFoundError path))) ∧
    (∀ (cfg : LocalCfg) (fs : LocalFS) (path : String),
      statPath fs (joinPath cfg.basePath path) = some .dir →
      localDelete cfg fs path =
        (fs, .error (newCustomError 400 "INVALID_PATH"
          ("Cannot delete a directory with this method: " ++ path)))) ∧
    (∀ (cfg : S3Cfg) (st : S3State) (path : String),
      st.objects.lookup (getFullKey cfg path) = none →
      s3Delete cfg st path = (st, .error (fileNotFoundError path))) := by
  refine ⟨?_, ?_, ?_⟩
  · intro cfg fs path h
    simp only [localDelete, h]
  · intro cfg fs path h
    simp only [localDelete, h]
  · intro cfg st path h
    simp only [s3Delete, s3Exists, headObject, h, s3ExistsFromHead,
      s3IsNotFoundErr_sdkMsg, if_true]

/-- Witness for the amended claim C8 at concrete states. -/
theorem delete_failure_modes_witness :
    localDelete { basePath := "storage", baseURL := "", createDirectories := true }
        { files := [], dirs := ["storage"] } "missing.txt" =
      ({ files := [], dirs := ["storage"] }, .error (fileNotFoundError "missing.txt")) ∧
    localDelete { basePath := "storage", baseURL := "", createDirectories := true }
        { files := [], dirs := ["storage", "storage/d"] } "d" =
      ({ files := [], dirs := ["storage", "storage/d"] },
       .error (newCustomError 400 "INVALID_PATH"
         ("Cannot delete a directory with this method: " ++ "d"))) ∧
    s3Delete { bucket := "bkt", keyPfx := "", baseURL := "", region := "" }
        { objects := [] } "missing.txt" =
      ({ objects := [] }, .error (fileNotFoundError "missing.txt")) :=
  ⟨delete_failure_modes.1
      { basePath := "storage", baseURL := "", createDirectories := true }
      { files := [], dirs := ["storage"] } "missing.txt" (by decide),
   delete_failure_modes.2.1
      { basePath := "storage", baseURL := "", createDirectories := true }
      { files := [], dirs := ["storage", "storage/d"] } "d" (by decide),
   delete_failure_modes.2.2
      { bucket := "bkt", keyPfx := "", baseURL := "", region := "" }
      { objects := [] } "missing.txt" (by decide)⟩

/-- Claim C9: a Config whose storage type is the empty string is
rejected by Validate, so NewStorageProvider returns the configuration
error before reaching the backend switch: the factory arm that would
default an empty storage type to the local backend is unreachable
through NewStorageProvider, whatever the backend constructors would
do. -/
theorem empty_storage_type_rejected (mkS3 mkLocal : Except AppError Unit)
    (cfg : Config) (h : cfg.storageType = "") :
    newStorageProvider mkS3 mkLocal cfg =
      .error (newErrorWithDetails 400 "Invalid filesystem configuration"
        (validateConfig cfg)) ∧
    validateConfig cfg ≠ [] := by
  have hne : validateConfig cfg ≠ [] := by
    unfold validateConfig
    rw [h]
    simp
    split <;> split <;> simp
  refine ⟨?_, hne⟩
  unfold newStorageProvider
  have hlen : 0 < (validateConfig cfg).length := List.length_pos.mpr hne
  simp only [gt_iff_lt, hlen, if_true]

/-- Witness for claim C9 at a concrete otherwise-valid configuration. -/
theorem empty_storage_type_rejected_witness :
    newStorageProvider (.ok ()) (.ok ())
        { storageType := "", s3Endpoint := "", s3AccessKey := "", s3SecretKey := "",
          s3Bucket := "", uploadMaxSizeMB := 10, timeoutSecs := 30 } =
      .error (newErrorWithDetails 400 "Invalid filesystem configuration"
        ["Invalid storage type. Must be local or s3"]) := by
  have h := empty_storage_type_rejected (.ok ()) (.ok ())
    { storageType := "", s3Endpoint := "", s3AccessKey := "", s3SecretKey := "",
      s3Bucket := "", uploadMaxSizeMB := 10, timeoutSecs := 30 } rfl
  rw [h.1]
  rfl

/-- Claim C10: the S3 GetInfo never reports a directory: every success
carries IsDirectory false, and on a path with no object stored at the
exact key (in particular a logical directory path, which exists only
as a key prefix) it fails with the FILE_NOT_FOUND error. -/
theorem s3_getinfo_never_directory :
    (∀ (cfg : S3Cfg) (st : S3State) (path : String) (fi : FileInfo),
      s3GetInfo cfg st path = .ok fi → fi.isDirectory = false) ∧
    (∀ (cfg : S3Cfg) (st : S3State) (path : String),
      st.objects.lookup (getFullKey cfg path) = none →
      s3GetInfo cfg st path = .error (fileNotFoundError path)) := by
  constructor
  · intro cfg st path fi h
    simp only [s3GetInfo] at h
    split at h
    · split at h
      · exact absurd h (by simp)
      · exact absurd h (by simp)
    · injection h with hfi
      subst hfi
      rfl
  · intro cfg st path h
    simp only [s3GetInfo, headObject, h, s3IsNotFoundErr_sdkMsg, if_true]

/-- Witness for claim C10: a stored object is reported as a file, and
a directory prefix with no object at the key itself is not found. -/
theorem s3_getinfo_never_directory_witness :
    FileInfo.isDirectory
      { name := "a.txt", size := 2, url := "https://bkt.s3.amazonaws.com/a.txt",
        contentType := "text/plain", isDirectory := false } = false ∧
    s3GetInfo { bucket := "bkt", keyPfx := "", baseURL := "", region := "" }
        { objects := [("d/f.txt", { content := [1], contentType := none })] } "d" =
      .error (fileNotFoundError "d") :=
  ⟨s3_getinfo_never_directory.1
      { bucket := "bkt", keyPfx := "", baseURL := "", region := "" }
      { objects := [("a.txt", { content := [1, 2], contentType := some "text/plain" })] }
      "a.txt"
      { name := "a.txt", size := 2, url := "https://bkt.s3.amazonaws.com/a.txt",
        contentType := "text/plain", isDirectory := false }
      (by rfl),
   s3_getinfo_never_directory.2
      { bucket := "bkt", keyPfx := "", baseURL := "", region := "" }
      { objects := [("d/f.txt", { content := [1], contentType := none })] } "d"
      (by decide)⟩
